import Mathlib

/-!
# Verification of the Helix admin backend OTP / token / auth-flow subsystem

Shallow embedding of the relevant parts of the Python source:

* `app/services/otp.py`   — `OTPService.generate_otp`, `OTPService.verify_otp`,
  `OTPService._cleanup_old_otps`, `OTPService._check_cooldown`
* `app/core/security.py`  — `create_access_token`, `verify_token`,
  `get_password_hash`, `verify_password`
* `app/api/auth.py`       — `forgot_password`, `invited_user_signup`
* `app/db/supabase.py`    — `insert_one`, `select_one`, `select_all`, `update_one`

Conventions of the embedding:

* Timestamps are natural numbers counting seconds (the Python code compares
  timezone-aware `datetime` values; only their ordering and differences in
  seconds matter to the logic being verified).
* The record store is a `List` of records; `select_one` is first match in
  list order (the store guarantees no order unless the filters pin one, so
  list order stands in for the store's arbitrary-but-fixed order), and
  `update_one` with an id-equality filter patches every record carrying that
  id (the store updates all matches; the service always filters on the
  primary-key column, which is unique in any well-formed store state).
* The cryptographically random fresh code, the store-assigned primary key of
  an inserted row, and "now" are nondeterministic inputs of the Python code
  and become explicit parameters.
* Python `str.lower()` and `str.strip()` are modelled per character on
  `String.data` (`pyLower`, `pyStrip`).
-/

/-- Python `str.lower()`: lower-case each character (per-character map). -/
def pyLower (s : String) : String := ⟨s.data.map Char.toLower⟩

/-- Python `str.strip()`: drop leading and trailing whitespace. -/
def pyStrip (s : String) : String :=
  ⟨((s.data.dropWhile Char.isWhitespace).reverse.dropWhile Char.isWhitespace).reverse⟩

/-- `email.lower().strip()` as done at the top of `generate_otp` and
`verify_otp` in `app/services/otp.py`. -/
def pyNormalize (email : String) : String := pyStrip (pyLower email)

/-- The configuration fields of `app/core/config.py` used by the verified
subsystem, with the defaults declared there. -/
structure Settings where
  OTP_EXPIRE_MINUTES : Nat := 10
  OTP_LENGTH : Nat := 6
  OTP_MAX_ATTEMPTS : Nat := 3
  OTP_COOLDOWN_MINUTES : Nat := 5
  ACCESS_TOKEN_EXPIRE_MINUTES : Nat := 30
  REFRESH_TOKEN_EXPIRE_DAYS : Nat := 7
  APP_SECRET_KEY : String := "app-secret"
  ALGORITHM : String := "HS256"
deriving Repr, DecidableEq

/-- The defaults of `config.py` (`APP_SECRET_KEY` is environment-sourced;
its concrete value is irrelevant to every property proved below). -/
def defaultSettings : Settings := {}

/-- A row of the `otp_verifications` table, with the exact fields written by
`generate_otp` plus the store-assigned primary key `otp_id`. -/
structure OtpRecord where
  otp_id : Nat
  email : String
  otp : String
  purpose : String
  expires_at : Nat
  attempts : Nat
  is_used : Bool
  is_expired : Bool
  is_locked : Bool
  locked_until : Option Nat
  created_at : Nat
  used_at : Option Nat
deriving Repr, DecidableEq

/-- `select_one(table, filters)` (`app/db/supabase.py`): first record
matching the equality filters, `None` if there is none. -/
def select_one (db : List OtpRecord) (p : OtpRecord → Bool) : Option OtpRecord :=
  db.find? p

/-- `update_one(table, {"otp_id": id}, patch)`: the store applies the patch
to every record matching the filter; the OTP service always filters on the
primary key `otp_id`. -/
def update_by_id (db : List OtpRecord) (id : Nat) (patch : OtpRecord → OtpRecord) :
    List OtpRecord :=
  db.map fun r => if r.otp_id == id then patch r else r

/-- The equality filter of `verify_otp`'s lookup:
`{"email": email, "purpose": purpose, "is_used": False}`.
Note that it does NOT constrain `is_expired`. -/
def verifyFilter (email purpose : String) (r : OtpRecord) : Bool :=
  r.email == email && r.purpose == purpose && r.is_used == false

/-- The equality filter of `generate_otp`'s lookup:
`{"email": email, "purpose": purpose, "is_used": False, "is_expired": False}`. -/
def liveFilter (email purpose : String) (r : OtpRecord) : Bool :=
  r.email == email && r.purpose == purpose && r.is_used == false && r.is_expired == false

/-- The distinct return values of `OTPService.verify_otp`, one constructor
per `return` site; `invalidCode` carries the number interpolated into
`"Invalid code. {n} attempts left."`. -/
inductive VerifyResult where
  | noRecord      -- "No valid verification code found."
  | expired       -- "Verification code has expired."
  | locked        -- "Too many failed attempts. Account locked."
  | invalidCode (attemptsRemaining : Nat)  -- "Invalid code. {n} attempts left."
  | ok            -- "Verification successful."
deriving Repr, DecidableEq

/-- `OTPService.verify_otp(email, otp, purpose)` (`app/services/otp.py`
lines 177–209), returning the result together with the updated store. -/
def verify_otp (s : Settings) (now : Nat) (db : List OtpRecord)
    (email otp purpose : String) : VerifyResult × List OtpRecord :=
  let e := pyNormalize email
  match select_one db (verifyFilter e purpose) with
  | none => (.noRecord, db)
  | some r =>
    if now > r.expires_at then
      (.expired, update_by_id db r.otp_id fun x => { x with is_expired := true })
    else
      let attempts := r.attempts + 1
      if attempts > s.OTP_MAX_ATTEMPTS then
        (.locked, update_by_id db r.otp_id fun x =>
          { x with is_locked := true,
                   locked_until := some (now + s.OTP_COOLDOWN_MINUTES * 60) })
      else
        let db1 := update_by_id db r.otp_id fun x => { x with attempts := attempts }
        if r.otp != otp then
          (.invalidCode (s.OTP_MAX_ATTEMPTS - attempts), db1)
        else
          (.ok, update_by_id db1 r.otp_id fun x =>
            { x with is_used := true, used_at := some now })

/-- `OTPService._cleanup_old_otps(email)`: selects all records with
`{"email": email.lower(), "is_used": False}` and marks each `is_expired`
(per-record updates keyed on the unique primary key, i.e. a map). -/
def cleanup_old_otps (db : List OtpRecord) (email : String) : List OtpRecord :=
  db.map fun r =>
    if r.email == pyLower email && r.is_used == false then { r with is_expired := true } else r

/-- `OTPService._check_cooldown(email)`: first record with
`{"email": email.lower(), "is_locked": True}`; in cooldown iff it exists,
has a `locked_until`, and `now < locked_until`. -/
def check_cooldown (now : Nat) (db : List OtpRecord) (email : String) : Bool :=
  match select_one db (fun r => r.email == pyLower email && r.is_locked == true) with
  | some r =>
    match r.locked_until with
    | some t => now < t
    | none => false
  | none => false

/-- The distinct outcomes of `OTPService.generate_otp`: reuse of the live
code, the `Exception(f"Rate limit exceeded. Please wait
{OTP_COOLDOWN_MINUTES} minutes.")` raise (carrying the interpolated
configured cooldown), or a fresh code inserted. -/
inductive GenResult where
  | reused (code : String)
  | rateLimited (cooldownMinutes : Nat)
  | fresh (code : String)
deriving Repr, DecidableEq

/-- The record inserted by `generate_otp` (its literal `otp_record` dict,
plus the store-assigned primary key). -/
def freshOtpRecord (s : Settings) (now : Nat) (code : String) (nextId : Nat)
    (email purpose : String) : OtpRecord :=
  { otp_id := nextId, email := email, otp := code, purpose := purpose,
    expires_at := now + s.OTP_EXPIRE_MINUTES * 60, attempts := 0,
    is_used := false, is_expired := false, is_locked := false,
    locked_until := none, created_at := now, used_at := none }

/-- The tail of `generate_otp` after the reuse check: cooldown check (raise
on cooldown), cleanup of old live records, then mint-and-insert. -/
def generate_fresh (s : Settings) (now : Nat) (freshCode : String) (nextId : Nat)
    (db : List OtpRecord) (email purpose : String) : GenResult × List OtpRecord :=
  if check_cooldown now db email then
    (.rateLimited s.OTP_COOLDOWN_MINUTES, db)
  else
    let db1 := cleanup_old_otps db email
    (.fresh freshCode, db1 ++ [freshOtpRecord s now freshCode nextId email purpose])

/-- `OTPService.generate_otp(email, purpose)` (`app/services/otp.py` lines
89–130). `freshCode` is the code the CSPRNG would mint and `nextId` the
primary key the store would assign; both are nondeterministic inputs of the
Python code. The Python reuse guard `time_remaining > 2` (minutes, as a real
number) is exactly `expires_at - now > 120` seconds, i.e.
`now + 120 < expires_at`. -/
def generate_otp (s : Settings) (now : Nat) (freshCode : String) (nextId : Nat)
    (db : List OtpRecord) (email purpose : String) : GenResult × List OtpRecord :=
  let e := pyNormalize email
  match select_one db (liveFilter e purpose) with
  | some r =>
    if now + 120 < r.expires_at then
      (.reused r.otp, db)
    else
      let db1 := update_by_id db r.otp_id fun x => { x with is_expired := true }
      generate_fresh s now freshCode nextId db1 e purpose
  | none => generate_fresh s now freshCode nextId db e purpose

/-! ## Token issuer / verifier (`app/core/security.py`) -/

/-- A Python value as stored in a JWT claims dict: `None`, a string, an
integer, or a boolean (`.none` also stands for an absent key, since the
code reads claims only through `dict.get`, which returns `None` for both). -/
inductive PyVal where
  | none
  | s (v : String)
  | i (v : Int)
  | b (v : Bool)
deriving Repr, DecidableEq

/-- A Python dict of JWT claims; lookup is first match, and `dict.update`
is modelled by prepending the overriding entries. -/
def PyDict := List (String × PyVal)

/-- `d.get(k)` (default `None`). -/
def pyGet (d : PyDict) (k : String) : PyVal :=
  match d.find? (fun kv => kv.1 == k) with
  | some kv => kv.2
  | .none => .none

/-- Python truthiness (`bool(v)`) of a claim value. -/
def pyTruthy : PyVal → Bool
  | .none => false
  | .s v => v != ""
  | .i v => v != 0
  | .b v => v

/-- Python `str(v)` of a claim value (`None` is guarded out before use). -/
def pyStr : PyVal → String
  | .none => "None"
  | .s v => v
  | .i v => toString v
  | .b true => "True"
  | .b false => "False"

/-- Truthiness of the already-extracted optional ID strings
(`None` and `""` are falsy in `all([...])`). -/
def pyTruthyOptStr : Option String → Bool
  | Option.none => false
  | some v => v != ""

/-- A signed JWT: the claims payload together with the signing key and
algorithm tag used by `jwt.encode`. Signature validity is modelled as
key/algorithm equality at decode time. -/
structure Jwt where
  claims : PyDict
  key : String
  alg : String

/-- `jose.jwt.decode(token, key, algorithms=[alg])`: fails (raises
`JWTError`, i.e. `none`) on a signature/algorithm mismatch or when the
`exp` claim is not in the future; returns the payload otherwise. -/
def jwt_decode (now : Nat) (key alg : String) (t : Jwt) : Option PyDict :=
  if t.key == key && t.alg == alg then
    match pyGet t.claims "exp" with
    | .i e => if e ≤ (now : Int) then Option.none else some t.claims
    | .none => some t.claims
    | _ => Option.none
  else Option.none

/-- `create_access_token(data)` (`app/core/security.py` lines 20–36):
copies `data`, overrides `exp`, `type`, `iss` and a boolean-coerced
`is_admin`, and signs with the configured secret and algorithm. `now` is
the mint time in epoch seconds. -/
def create_access_token (s : Settings) (now : Nat) (data : PyDict) : Jwt :=
  let is_admin := pyTruthy (pyGet data "is_admin")
  { claims :=
      ("exp", .i ((now : Int) + s.ACCESS_TOKEN_EXPIRE_MINUTES * 60)) ::
      ("type", .s "access") ::
      ("iss", .s "store-management-system") ::
      ("is_admin", .b is_admin) :: data,
    key := s.APP_SECRET_KEY, alg := s.ALGORITHM }

/-- The `TokenData` schema (`app/schemas/schemas.py`): IDs already coerced
to strings by `verify_token`; `email` is carried as the raw claim value
that the Pydantic model receives. -/
structure TokenData where
  user_id : String
  email : PyVal
  branch_id : String
  is_admin : Bool
deriving Repr, DecidableEq

/-- `str(payload.get(k)) if payload.get(k) is not None else None`, the ID
extraction of `verify_token` (`app/core/security.py` lines 89-90). -/
def extractId (v : PyVal) : Option String :=
  match v with
  | .none => Option.none
  | v => some (pyStr v)

/-- The role extraction of `verify_token`: a string claim is compared
lower-cased against `'true'`, anything else goes through `bool(...)`. -/
def extractIsAdmin (v : PyVal) : Bool :=
  match v with
  | .s w => pyLower w == "true"
  | v => pyTruthy v

/-- `verify_token(token, expected_type)` (`app/core/security.py` lines
71–113): decode, type guard, `str(...)` coercion of the IDs, string-aware
boolean coercion of `is_admin`, then the `all([user_id, email, branch_id])`
truthiness check; `none` on any failure. -/
def verify_token (s : Settings) (now : Nat) (t : Jwt) (expected_type : String) :
    Option TokenData :=
  match jwt_decode now s.APP_SECRET_KEY s.ALGORITHM t with
  | Option.none => Option.none
  | some payload =>
    if pyGet payload "type" != PyVal.s expected_type then Option.none
    else
      let user_id : Option String := extractId (pyGet payload "user_id")
      let branch_id : Option String := extractId (pyGet payload "branch_id")
      let email := pyGet payload "email"
      let is_admin := extractIsAdmin (pyGet payload "is_admin")
      if pyTruthyOptStr user_id && pyTruthy email && pyTruthyOptStr branch_id then
        some { user_id := user_id.getD "", email := email,
               branch_id := branch_id.getD "", is_admin := is_admin }
      else Option.none

/-! ## Password hashing (`app/core/security.py` lines 125–146) -/

/-- UTF-8 encoding of a password, `password.encode('utf-8')`. -/
def utf8Bytes (s : String) : List UInt8 :=
  s.data.flatMap String.utf8EncodeChar

/-- A bcrypt hash: the salt together with the digest. The bcrypt algorithm
digests at most the first 72 bytes of its input; `H` abstracts the actual
one-way function applied to those bytes and the salt. -/
structure BcryptHash where
  salt : Nat
  digest : List UInt8

/-- `bcrypt.hashpw(password_bytes, salt)`: the digest depends only on the
first 72 bytes of the input (the bcrypt algorithm's documented limit). -/
def bcrypt_hashpw (H : List UInt8 → Nat → List UInt8) (passwordBytes : List UInt8)
    (salt : Nat) : BcryptHash :=
  { salt := salt, digest := H (passwordBytes.take 72) salt }

/-- `bcrypt.checkpw(password_bytes, hashed)`: recompute with the hash's
salt and compare; like `hashpw` it reads at most 72 input bytes (the
passlib fallback in `verify_password` truncates to 72 bytes the same way). -/
def bcrypt_checkpw (H : List UInt8 → Nat → List UInt8) (passwordBytes : List UInt8)
    (h : BcryptHash) : Bool :=
  H (passwordBytes.take 72) h.salt == h.digest

/-- `get_password_hash(password)` (`app/core/security.py` lines 137–146):
UTF-8 encode, truncate explicitly to 72 bytes when longer, then
`bcrypt.hashpw` with a fresh salt (here a parameter). -/
def get_password_hash (H : List UInt8 → Nat → List UInt8) (salt : Nat)
    (password : String) : BcryptHash :=
  let password_bytes := utf8Bytes password
  let password_bytes :=
    if password_bytes.length > 72 then password_bytes.take 72 else password_bytes
  bcrypt_hashpw H password_bytes salt

/-- `verify_password(plain_password, hashed_password)` (`app/core/security.py`
lines 125–135). -/
def verify_password (H : List UInt8 → Nat → List UInt8) (plain_password : String)
    (hashed_password : BcryptHash) : Bool :=
  bcrypt_checkpw H (utf8Bytes plain_password) hashed_password

/-! ## Auth flow handlers (`app/api/auth.py`) -/

/-- A row of the `users` table, restricted to the fields the verified
handlers read. -/
structure UserRecord where
  user_id : Nat
  email : String
  branch_id : Nat
  is_active : Bool
  is_verified : Bool
deriving Repr, DecidableEq

/-- An HTTP-level handler outcome: a JSON body `{"success": ..,
"message": ..}` or an `HTTPException` with a status code. -/
inductive FPResult where
  | ok (success : Bool) (message : String)
  | httpError (status : Nat)
deriving Repr, DecidableEq

/-- `forgot_password(request)` (`app/api/auth.py` lines 492–504): look up
an active user by the lower-cased email; if absent, report success with the
information-hiding message; otherwise generate a `password_reset` OTP
(rate-limit exceptions become HTTP 500) and report success. Returns the
response together with the updated OTP store. -/
def forgot_password (s : Settings) (now : Nat) (freshCode : String) (nextId : Nat)
    (users : List UserRecord) (otpDb : List OtpRecord) (email : String) :
    FPResult × List OtpRecord :=
  match users.find? (fun u => u.email == pyLower email && u.is_active == true) with
  | Option.none =>
    (.ok true "If this email is registered, a reset code has been sent.", otpDb)
  | some _ =>
    match generate_otp s now freshCode nextId otpDb email "password_reset" with
    | (.rateLimited _, db1) => (.httpError 500, db1)
    | (.reused _, db1) => (.ok true "Reset code sent to your email.", db1)
    | (.fresh _, db1) => (.ok true "Reset code sent to your email.", db1)

/-- A row of the `invites` table, restricted to the fields
`invited_user_signup` reads. -/
structure InviteRecord where
  invite_id : Nat
  token : String
  email : String
  branch_id : Nat
  expires_at : Nat
  is_used : Bool
deriving Repr, DecidableEq

/-- The shared store state touched by invite redemption. -/
structure SignupState where
  invites : List InviteRecord
  users : List UserRecord
deriving Repr, DecidableEq

/-- The read phase of `invited_user_signup` (`app/api/auth.py` lines
359–399): `select_one("invites", {"token": token, "is_used": False})`
followed by the expiry guard. `some inv` means the request passes both
guards and proceeds to user creation. -/
def inviteSignupRead (now : Nat) (st : SignupState) (token : String) :
    Option InviteRecord :=
  match st.invites.find? (fun i => i.token == token && i.is_used == false) with
  | Option.none => Option.none
  | some inv => if now > inv.expires_at then Option.none else some inv

/-- The write phase of `invited_user_signup`: insert the new user row, then
mark the invite used (`update_one` keyed on the primary key). The handler
then returns HTTP 200 with fresh tokens, i.e. the request succeeds. -/
def inviteSignupWrite (st : SignupState) (inv : InviteRecord) (newUserId : Nat) :
    SignupState :=
  { users := st.users ++
      [{ user_id := newUserId, email := inv.email, branch_id := inv.branch_id,
         is_active := true, is_verified := true }],
    invites := st.invites.map fun i =>
      if i.invite_id == inv.invite_id then { i with is_used := true } else i }

/-- One whole sequential execution of `invited_user_signup`: read phase then
write phase; `true` in the first component means the handler succeeded. -/
def inviteSignup (now : Nat) (st : SignupState) (token : String) (newUserId : Nat) :
    Bool × SignupState :=
  match inviteSignupRead now st token with
  | Option.none => (false, st)
  | some inv => (true, inviteSignupWrite st inv newUserId)

/-- The interleaved execution of two concurrent `invited_user_signup`
requests A and B for the same token under the schedule
A-read, B-read, A-write, B-write (every store call is a suspension point,
so this schedule is admissible). Returns whether each request succeeded and
the final state. -/
def inviteSignupInterleaved (now : Nat) (st : SignupState) (token : String)
    (idA idB : Nat) : Bool × Bool × SignupState :=
  let readA := inviteSignupRead now st token
  let readB := inviteSignupRead now st token
  match readA with
  | Option.none =>
    match readB with
    | Option.none => (false, false, st)
    | some invB => (false, true, inviteSignupWrite st invB idB)
  | some invA =>
    let st1 := inviteSignupWrite st invA idA
    match readB with
    | Option.none => (true, false, st1)
    | some invB => (true, true, inviteSignupWrite st1 invB idB)

/-! ## Concrete store states used to evaluate the definitions -/

/-- A tombstoned record: `is_expired = true` was set explicitly (as
`_cleanup_old_otps` and the near-expiry branch of `generate_otp` do) while
`expires_at` is still in the future. -/
def otpTomb : OtpRecord :=
  { otp_id := 1, email := "a@x.com", otp := "123456", purpose := "verification",
    expires_at := 600, attempts := 0, is_used := false, is_expired := true,
    is_locked := false, locked_until := none, created_at := 0, used_at := none }

/-- A consumed record (`is_used = true`). -/
def otpUsed : OtpRecord :=
  { otp_id := 2, email := "a@x.com", otp := "111111", purpose := "verification",
    expires_at := 600, attempts := 1, is_used := true, is_expired := false,
    is_locked := false, locked_until := none, created_at := 0, used_at := some 5 }

/-- A freshly generated live record (what `generate_otp` inserts at time 0
with the default ten-minute TTL). -/
def otpLive : OtpRecord :=
  { otp_id := 3, email := "a@x.com", otp := "123456", purpose := "verification",
    expires_at := 600, attempts := 0, is_used := false, is_expired := false,
    is_locked := false, locked_until := none, created_at := 0, used_at := none }

/-- A locked record whose cooldown runs until time 1060. -/
def otpLocked : OtpRecord :=
  { otp_id := 4, email := "b@x.com", otp := "222222", purpose := "verification",
    expires_at := 600, attempts := 3, is_used := false, is_expired := false,
    is_locked := true, locked_until := some 1060, created_at := 0, used_at := none }

/-- The store after four wrong-code `verify_otp` calls (at seconds 550–553)
against `otpLive`: the fourth exceeds `OTP_MAX_ATTEMPTS = 3` and locks the
record until `553 + 5 * 60 = 853`. -/
def lockedTraceDb : List OtpRecord :=
  (verify_otp defaultSettings 553
    (verify_otp defaultSettings 552
      (verify_otp defaultSettings 551
        (verify_otp defaultSettings 550 [otpLive] "a@x.com" "000000" "verification").2
        "a@x.com" "000000" "verification").2
      "a@x.com" "000000" "verification").2
    "a@x.com" "000000" "verification").2

/-- Claims dict for the access-token round trip: the three required keys
plus an admin flag. -/
def tokenClaimsGood : PyDict :=
  [("user_id", .i 42), ("email", .s "a@x.com"), ("branch_id", .s "7"),
   ("is_admin", .b true)]

/-- Claims dict containing `user_id`, `email` and `branch_id`, with the
empty string as email. -/
def tokenClaimsEmptyEmail : PyDict :=
  [("user_id", .i 1), ("email", .s ""), ("branch_id", .i 2)]

/-- A locked record that has also been tombstoned (as `_cleanup_old_otps`
does to unused records): not live for `generate_otp`'s lookup, but found by
`_check_cooldown`'s `is_locked` lookup. Cooldown runs until 1060. -/
def otpLockedExpired : OtpRecord :=
  { otp_id := 5, email := "b@x.com", otp := "222222", purpose := "verification",
    expires_at := 600, attempts := 3, is_used := false, is_expired := true,
    is_locked := true, locked_until := some 1060, created_at := 0, used_at := none }

/-- One unused, unexpired invite for token "TOK123". -/
def inviteSt0 : SignupState :=
  { invites := [{ invite_id := 1, token := "TOK123", email := "a@x.com",
                  branch_id := 7, expires_at := 1000, is_used := false }],
    users := [] }

/-- An active, verified user row for `a@x.com`. -/
def userAlice : UserRecord :=
  { user_id := 1, email := "a@x.com", branch_id := 7, is_active := true,
    is_verified := true }

/-! ## Helper lemmas -/

theorem toNat_ofNat_small {m : Nat} (h : m < 55296) : (Char.ofNat m).toNat = m := by
  have hv : m.isValidChar := Or.inl h
  simp [Char.ofNat, hv, Char.ofNatAux, Char.toNat]
  rfl

theorem Char.toLower_idem (c : Char) : c.toLower.toLower = c.toLower := by
  simp only [Char.toLower]
  split
  · next h =>
    have hv : (Char.ofNat (c.toNat + 32)).toNat = c.toNat + 32 :=
      toNat_ofNat_small (by omega)
    rw [hv]
    split
    · next h2 => omega
    · rfl
  · next h => rfl

theorem mem_pyStrip {c : Char} {s : String} (h : c ∈ (pyStrip s).data) : c ∈ s.data := by
  simp only [pyStrip, List.mem_reverse] at h
  have h2 := (List.dropWhile_sublist (l := (s.data.dropWhile Char.isWhitespace).reverse)
    (p := Char.isWhitespace)).subset h
  rw [List.mem_reverse] at h2
  exact (List.dropWhile_sublist (l := s.data) (p := Char.isWhitespace)).subset h2

/-- Lower-casing is idempotent, so the normalized email computed inside
`generate_otp` / `verify_otp` is a fixed point of the extra `.lower()`
applied by `_cleanup_old_otps` and `_check_cooldown`. -/
theorem pyLower_pyNormalize (email : String) :
    pyLower (pyNormalize email) = pyNormalize email := by
  have hfix : ∀ c ∈ (pyNormalize email).data, Char.toLower c = c := by
    intro c hc
    have : c ∈ (pyLower email).data := mem_pyStrip hc
    simp only [pyLower] at this
    obtain ⟨d, _, rfl⟩ := List.mem_map.mp this
    exact Char.toLower_idem d
  show (⟨(pyNormalize email).data.map Char.toLower⟩ : String) = pyNormalize email
  rw [List.map_congr_left hfix]
  simp

/-- Membership is preserved by an id-keyed update targeting a different id. -/
theorem mem_update_by_id_of_ne {r : OtpRecord} {db : List OtpRecord} {id : Nat}
    {patch : OtpRecord → OtpRecord} (hr : r ∈ db) (hne : r.otp_id ≠ id) :
    r ∈ update_by_id db id patch := by
  simp only [update_by_id, List.mem_map]
  exact ⟨r, hr, by simp [hne]⟩

/-! ## Claim C1 -/

/-- C1 counterexample: the claim says `verify()` never accepts or mutates a
record with `is_expired = true` because the live-record lookup excludes
such records. In the code the lookup filters only on `is_used`, so a
tombstoned record (`is_expired = true`) whose `expires_at` is still in the
future is selected, its attempts counter is mutated, and the submitted code
validates: `verify_otp` returns success and marks the tombstoned record
used. -/
theorem verify_accepts_tombstoned_record :
    (verify_otp defaultSettings 10 [otpTomb] "a@x.com" "123456" "verification").1
      = .ok
    ∧ (verify_otp defaultSettings 10 [otpTomb] "a@x.com" "123456" "verification").2
      = [{ otpTomb with attempts := 1, is_used := true, used_at := some 10 }]
    ∧ otpTomb.is_expired = true := by
  decide

/-- C1 amended: `verify_otp`'s live-record lookup excludes records with
`is_used = true`, so a used record is never selected (USED is terminal) and
— in a store whose primary keys are distinct — every used record passes
through `verify_otp` untouched; the lookup does not exclude
`is_expired = true`, so tombstoned records enjoy no such guarantee. -/
theorem verify_preserves_used_records (s : Settings) (now : Nat)
    (db : List OtpRecord) (email code purpose : String)
    (hids : (db.map OtpRecord.otp_id).Nodup) :
    (∀ r, select_one db (verifyFilter (pyNormalize email) purpose) = some r →
      r.is_used = false)
    ∧ ∀ r ∈ db, r.is_used = true → r ∈ (verify_otp s now db email code purpose).2 := by
  constructor
  · intro r hfind
    have h := List.find?_some hfind
    simp only [verifyFilter, Bool.and_eq_true, beq_iff_eq] at h
    exact h.2
  · intro r hr hu
    simp only [verify_otp]
    cases hsel : select_one db (verifyFilter (pyNormalize email) purpose) with
    | none => simpa using hr
    | some sel =>
      have hselmem : sel ∈ db := List.mem_of_find?_eq_some hsel
      have hself : sel.is_used = false := by
        have h := List.find?_some hsel
        simp only [verifyFilter, Bool.and_eq_true, beq_iff_eq] at h
        exact h.2
      have hneid : r.otp_id ≠ sel.otp_id := by
        intro h
        have heq : r = sel := List.inj_on_of_nodup_map hids hr hselmem h
        rw [heq, hself] at hu
        cases hu
      simp only
      split
      · exact mem_update_by_id_of_ne hr hneid
      · split
        · exact mem_update_by_id_of_ne hr hneid
        · split
          · exact mem_update_by_id_of_ne hr hneid
          · exact mem_update_by_id_of_ne (mem_update_by_id_of_ne hr hneid) hneid

/-- Witness for `verify_preserves_used_records` at a concrete store holding
a used record next to a live one. -/
theorem verify_preserves_used_records_witness :
    otpUsed ∈ (verify_otp defaultSettings 10 [otpUsed, otpLive]
      "a@x.com" "123456" "verification").2 := by
  exact (verify_preserves_used_records defaultSettings 10 [otpUsed, otpLive]
    "a@x.com" "123456" "verification" (by decide)).2 otpUsed (by decide) (by decide)

/-! ## Claim C2 -/

/-- C2: when the record selected by `verify_otp`'s lookup has `expires_at`
in the past, the call returns the expiry failure regardless of the
submitted code, marks exactly that record `is_expired = true`, and leaves
every record's attempts counter unchanged (the expiry check short-circuits
before an attempt is consumed). -/
theorem verify_expired_short_circuits (s : Settings) (now : Nat)
    (db : List OtpRecord) (email code purpose : String) (r : OtpRecord)
    (hfind : select_one db (verifyFilter (pyNormalize email) purpose) = some r)
    (hexp : r.expires_at < now) :
    verify_otp s now db email code purpose
      = (.expired, update_by_id db r.otp_id fun x => { x with is_expired := true })
    ∧ (verify_otp s now db email code purpose).2.map OtpRecord.attempts
      = db.map OtpRecord.attempts := by
  have hgt : now > r.expires_at := hexp
  have hmain : verify_otp s now db email code purpose
      = (.expired, update_by_id db r.otp_id fun x => { x with is_expired := true }) := by
    simp only [verify_otp, hfind, if_pos hgt]
  refine ⟨hmain, ?_⟩
  rw [hmain]
  simp only [update_by_id, List.map_map]
  apply List.map_congr_left
  intro a _
  by_cases h : a.otp_id = r.otp_id <;> simp [Function.comp, h]

/-- Witness for `verify_expired_short_circuits`: the default ten-minute TTL
record generated at time 0, verified with its own correct code at second
601. -/
theorem verify_expired_short_circuits_witness :
    verify_otp defaultSettings 601 [otpLive] "a@x.com" "123456" "verification"
      = (.expired,
         update_by_id [otpLive] otpLive.otp_id fun x => { x with is_expired := true }) := by
  exact (verify_expired_short_circuits defaultSettings 601 [otpLive]
    "a@x.com" "123456" "verification" otpLive (by decide) (by decide)).1

/-! ## Claim C3 -/

/-- C3: for a live, unexpired selected record whose incremented attempt
count stays within `OTP_MAX_ATTEMPTS`, `verify_otp` persists the increment
regardless of whether the code matches (the update precedes the
comparison), and on a mismatch returns the invalid-code failure carrying
`OTP_MAX_ATTEMPTS - (attempts + 1)` remaining attempts along with the store
whose selected record has its counter incremented. -/
theorem verify_wrong_code_counts_attempt (s : Settings) (now : Nat)
    (db : List OtpRecord) (email code purpose : String) (r : OtpRecord)
    (hfind : select_one db (verifyFilter (pyNormalize email) purpose) = some r)
    (hexp : now ≤ r.expires_at)
    (hatt : r.attempts + 1 ≤ s.OTP_MAX_ATTEMPTS) :
    ((verify_otp s now db email code purpose).2.map OtpRecord.attempts
      = (update_by_id db r.otp_id fun x =>
          { x with attempts := r.attempts + 1 }).map OtpRecord.attempts)
    ∧ (r.otp ≠ code →
        verify_otp s now db email code purpose
          = (.invalidCode (s.OTP_MAX_ATTEMPTS - (r.attempts + 1)),
             update_by_id db r.otp_id fun x => { x with attempts := r.attempts + 1 })) := by
  have hngt : ¬ now > r.expires_at := by omega
  have hnlt : ¬ r.attempts + 1 > s.OTP_MAX_ATTEMPTS := by omega
  constructor
  · simp only [verify_otp, hfind, if_neg hngt, if_neg hnlt]
    by_cases hne : r.otp = code
    · simp only [hne, bne_self_eq_false, Bool.false_eq_true, if_false]
      simp only [update_by_id, List.map_map]
      apply List.map_congr_left
      intro a _
      by_cases h : a.otp_id = r.otp_id <;> simp [Function.comp, h]
    · have : (r.otp != code) = true := by simp [bne_iff_ne, hne]
      simp only [this, if_true]
  · intro hne
    have hbne : (r.otp != code) = true := by simp [bne_iff_ne, hne]
    simp only [verify_otp, hfind, if_neg hngt, if_neg hnlt, hbne, if_true]

/-- Witness for `verify_wrong_code_counts_attempt`: wrong code `"000000"`
against the fresh record (`max_attempts = 3`), which fails with 2 attempts
remaining and persists `attempts = 1`. -/
theorem verify_wrong_code_counts_attempt_witness :
    verify_otp defaultSettings 10 [otpLive] "a@x.com" "000000" "verification"
      = (.invalidCode 2,
         update_by_id [otpLive] otpLive.otp_id fun x => { x with attempts := 1 }) := by
  exact (verify_wrong_code_counts_attempt defaultSettings 10 [otpLive]
    "a@x.com" "000000" "verification" otpLive (by decide) (by decide) (by decide)).2
    (by decide)

/-! ## Claim C4 -/

/-- C4 counterexample: the claim says every `verify()` call during the
cooldown window fails with a lockout message. After four wrong codes at
seconds 550–553 the record is locked with `locked_until = 853`, yet the
call at second 601 — inside the cooldown window and with the correct code —
returns the expiry failure, not the lockout failure, because the record's
`expires_at = 600` has passed and the expiry check runs first. -/
theorem lockout_cooldown_not_always_locked_message :
    (∃ r ∈ lockedTraceDb, r.is_locked = true ∧ r.locked_until = some 853)
    ∧ 601 < 853
    ∧ (verify_otp defaultSettings 601 lockedTraceDb "a@x.com" "123456" "verification").1
        = .expired
    ∧ (verify_otp defaultSettings 601 lockedTraceDb "a@x.com" "123456" "verification").1
        ≠ .locked := by
  decide

/-- C4 amended: once the selected record's stored attempts have reached
`OTP_MAX_ATTEMPTS` (the state left by `max_attempts` wrong submissions —
the lockout branch itself never persists the overflowing count), every
further `verify_otp` call before `expires_at` fails with the lockout
message even for the correct code, setting `is_locked = true` and
`locked_until = now + OTP_COOLDOWN_MINUTES * 60`; after `expires_at` the
call fails with the expiry message instead. -/
theorem verify_lockout_terminal (s : Settings) (now : Nat)
    (db : List OtpRecord) (email code purpose : String) (r : OtpRecord)
    (hfind : select_one db (verifyFilter (pyNormalize email) purpose) = some r)
    (hatt : s.OTP_MAX_ATTEMPTS < r.attempts + 1) :
    (now ≤ r.expires_at →
      verify_otp s now db email code purpose
        = (.locked, update_by_id db r.otp_id fun x =>
            { x with is_locked := true,
                     locked_until := some (now + s.OTP_COOLDOWN_MINUTES * 60) }))
    ∧ (r.expires_at < now →
      verify_otp s now db email code purpose
        = (.expired, update_by_id db r.otp_id fun x => { x with is_expired := true })) := by
  constructor
  · intro hle
    have hngt : ¬ now > r.expires_at := by omega
    simp only [verify_otp, hfind, if_neg hngt, if_pos hatt]
  · intro hlt
    simp only [verify_otp, hfind, if_pos hlt]

/-- Witness for `verify_lockout_terminal`: the locked record (attempts
already at the maximum) rejects its own correct code at second 100 and
re-arms the cooldown until second 400. -/
theorem verify_lockout_terminal_witness :
    verify_otp defaultSettings 100 [otpLocked] "b@x.com" "222222" "verification"
      = (.locked, update_by_id [otpLocked] otpLocked.otp_id fun x =>
          { x with is_locked := true, locked_until := some 400 }) := by
  exact (verify_lockout_terminal defaultSettings 100 [otpLocked]
    "b@x.com" "222222" "verification" otpLocked (by decide) (by decide)).1 (by decide)

/-! ## Claim C6 -/

theorem find?_append_singleton {p : OtpRecord → Bool} {A : List OtpRecord}
    {b : OtpRecord} (hA : ∀ a ∈ A, p a = false) (hb : p b = true) :
    (A ++ [b]).find? p = some b := by
  rw [List.find?_append]
  have hnone : A.find? p = none := by
    rw [List.find?_eq_none]
    intro x hx
    simp [hA x hx]
  simp [hnone, List.find?, hb]

/-- After `_cleanup_old_otps(e)` no record of the store satisfies
`generate_otp`'s live filter for the normalized email `e`: every unused
record for `e` was tombstoned and the remaining ones fail the filter
already. -/
theorem cleanup_kills_live_filter (dbX : List OtpRecord) (e purpose : String)
    (he : pyLower e = e) :
    ∀ a ∈ cleanup_old_otps dbX e, liveFilter e purpose a = false := by
  intro a ha
  simp only [cleanup_old_otps, List.mem_map] at ha
  obtain ⟨orig, -, rfl⟩ := ha
  by_cases hc : (orig.email == pyLower e && orig.is_used == false) = true
  · rw [if_pos hc]
    simp [liveFilter]
  · rw [if_neg hc]
    rw [he] at hc
    cases hfil : liveFilter e purpose orig
    · rfl
    · exfalso
      simp only [liveFilter, Bool.and_eq_true, beq_iff_eq] at hfil
      exact hc (by simp [he, hfil.1.1.1, hfil.1.1.2, hfil.1.2])

/-- C6: if a `generate_otp` call at time `t0` minted and inserted a fresh
code, then a second `generate_otp` call at any time `t1` while the inserted
record still has more than the two-minute reuse threshold of lifetime left
returns the identical code and leaves the store untouched — in particular
it inserts no new record. -/
theorem generate_reuses_live_code (s : Settings) (t0 t1 : Nat)
    (db0 db1 : List OtpRecord) (email purpose code : String) (nid : Nat)
    (code2 : String) (nid2 : Nat)
    (h1 : generate_otp s t0 code nid db0 email purpose = (.fresh code, db1))
    (h2 : t1 + 120 < t0 + s.OTP_EXPIRE_MINUTES * 60) :
    generate_otp s t1 code2 nid2 db1 email purpose = (.reused code, db1) := by
  have he : pyLower (pyNormalize email) = pyNormalize email := pyLower_pyNormalize email
  have hshape : ∃ dbX, db1 = cleanup_old_otps dbX (pyNormalize email)
      ++ [freshOtpRecord s t0 code nid (pyNormalize email) purpose] := by
    simp only [generate_otp, generate_fresh] at h1
    split at h1
    · split at h1
      · exact absurd h1 (by simp)
      · split at h1
        · exact absurd h1 (by simp)
        · exact ⟨_, (congrArg Prod.snd h1).symm⟩
    · split at h1
      · exact absurd h1 (by simp)
      · exact ⟨_, (congrArg Prod.snd h1).symm⟩
  obtain ⟨dbX, rfl⟩ := hshape
  have hA : ∀ a ∈ cleanup_old_otps dbX (pyNormalize email),
      liveFilter (pyNormalize email) purpose a = false :=
    cleanup_kills_live_filter dbX (pyNormalize email) purpose he
  have hb : liveFilter (pyNormalize email) purpose
      (freshOtpRecord s t0 code nid (pyNormalize email) purpose) = true := by
    simp [liveFilter, freshOtpRecord]
  have hfind : select_one
      (cleanup_old_otps dbX (pyNormalize email)
        ++ [freshOtpRecord s t0 code nid (pyNormalize email) purpose])
      (liveFilter (pyNormalize email) purpose)
      = some (freshOtpRecord s t0 code nid (pyNormalize email) purpose) :=
    find?_append_singleton hA hb
  have hlt : t1 + 120
      < (freshOtpRecord s t0 code nid (pyNormalize email) purpose).expires_at := by
    simpa [freshOtpRecord] using h2
  simp only [generate_otp]
  rw [hfind]
  simp only [if_pos hlt]
  simp [freshOtpRecord]

/-- Witness for `generate_reuses_live_code`: generate at time 0 into an
empty store, generate again at time 100 — the second call returns the same
`"123456"` and the same store. -/
theorem generate_reuses_live_code_witness :
    generate_otp defaultSettings 100 "999999" 2
      (generate_otp defaultSettings 0 "123456" 1 [] "a@x.com" "verification").2
      "a@x.com" "verification"
      = (.reused "123456",
         (generate_otp defaultSettings 0 "123456" 1 [] "a@x.com" "verification").2) := by
  exact generate_reuses_live_code defaultSettings 0 100 []
    (generate_otp defaultSettings 0 "123456" 1 [] "a@x.com" "verification").2
    "a@x.com" "verification" "123456" 1 "999999" 2 (by decide) (by decide)

/-! ## Claim C7 -/

/-- C7 counterexample: the claim says the RateLimited error carries the
remaining wait until `locked_until`. At second 1000, with the cooldown
running until 1060 (60 seconds remaining), `generate_otp` raises the
rate-limit error carrying the configured `OTP_COOLDOWN_MINUTES = 5`
(i.e. "Please wait 5 minutes"), which is not the remaining wait. -/
theorem generate_rate_limit_ignores_remaining_wait :
    generate_otp defaultSettings 1000 "111111" 6 [otpLockedExpired]
      "b@x.com" "verification"
      = (.rateLimited defaultSettings.OTP_COOLDOWN_MINUTES, [otpLockedExpired])
    ∧ otpLockedExpired.locked_until = some 1060
    ∧ defaultSettings.OTP_COOLDOWN_MINUTES * 60 ≠ 1060 - 1000 := by
  decide

/-- C7 amended: when the live lookup finds no record for (email, purpose)
and the cooldown lookup finds a locked record for the email whose
`locked_until` lies in the future, `generate_otp` fails with the rate-limit
error carrying the full configured cooldown duration (not the remaining
wait), and the store is unchanged — in particular no new OTP record is
created. -/
theorem generate_cooldown_rejects (s : Settings) (now : Nat) (code : String)
    (nid : Nat) (db : List OtpRecord) (email purpose : String) (r : OtpRecord)
    (t : Nat)
    (hnolive : select_one db (liveFilter (pyNormalize email) purpose) = none)
    (hlocked : select_one db
      (fun x => x.email == pyLower (pyNormalize email) && x.is_locked == true)
      = some r)
    (huntil : r.locked_until = some t) (hfut : now < t) :
    generate_otp s now code nid db email purpose
      = (.rateLimited s.OTP_COOLDOWN_MINUTES, db) := by
  have hcool : check_cooldown now db (pyNormalize email) = true := by
    simp only [check_cooldown, hlocked, huntil]
    simpa using hfut
  simp only [generate_otp]
  rw [hnolive]
  simp only [generate_fresh, hcool, if_true]

/-- Witness for `generate_cooldown_rejects` at the tombstoned locked
record, 60 seconds before its cooldown ends. -/
theorem generate_cooldown_rejects_witness :
    generate_otp defaultSettings 1000 "333333" 7 [otpLockedExpired]
      "b@x.com" "verification"
      = (.rateLimited 5, [otpLockedExpired]) := by
  exact generate_cooldown_rejects defaultSettings 1000 "333333" 7
    [otpLockedExpired] "b@x.com" "verification" otpLockedExpired 1060
    (by decide) (by decide) (by decide) (by decide)

/-! ## Claim C5 -/

theorem extractId_of_ne_none {v : PyVal} (hv : v ≠ .none) :
    extractId v = some (pyStr v) := by
  cases v
  · exact absurd rfl hv
  all_goals rfl

/-- C5 counterexample: the claim says `verify_token(create_access_token
(claims), "access")` returns the claims for every claims map containing
`user_id`, `email` and `branch_id`. The map `tokenClaimsEmptyEmail`
contains all three keys, yet (because `all([user_id, email, branch_id])`
treats the empty string as falsy) verification of the freshly minted,
unexpired token returns `None` instead of the claims. -/
theorem verify_token_rejects_empty_email :
    pyGet tokenClaimsEmptyEmail "user_id" = .i 1
    ∧ pyGet tokenClaimsEmptyEmail "email" = .s ""
    ∧ pyGet tokenClaimsEmptyEmail "branch_id" = .i 2
    ∧ verify_token defaultSettings 0
        (create_access_token defaultSettings 0 tokenClaimsEmptyEmail) "access"
      = Option.none := by
  decide

/-- C5 amended: for every claims map whose `user_id`, `email`, `branch_id`
entries are present, with `email` a non-empty string and the IDs non-null
with non-empty string forms (automatic for numeric IDs), verifying the
freshly minted access token before its expiry yields the claims with both
IDs coerced to canonical strings and `is_admin` as a boolean, while
verifying the same token as a `"refresh"` token yields `None`. -/
theorem access_token_roundtrip (s : Settings) (t0 t1 : Nat) (data : PyDict)
    (u bv : PyVal) (em : String)
    (hu : pyGet data "user_id" = u) (hb : pyGet data "branch_id" = bv)
    (he : pyGet data "email" = .s em)
    (hun : u ≠ .none) (hbn : bv ≠ .none)
    (hus : pyStr u ≠ "") (hbs : pyStr bv ≠ "")
    (hem : em ≠ "")
    (hexp : t1 < t0 + s.ACCESS_TOKEN_EXPIRE_MINUTES * 60) :
    verify_token s t1 (create_access_token s t0 data) "access"
      = some { user_id := pyStr u, email := .s em, branch_id := pyStr bv,
               is_admin := pyTruthy (pyGet data "is_admin") }
    ∧ verify_token s t1 (create_access_token s t0 data) "refresh"
      = Option.none := by
  have hkey : ((create_access_token s t0 data).key == s.APP_SECRET_KEY
      && (create_access_token s t0 data).alg == s.ALGORITHM) = true := by
    simp [create_access_token]
  have hpexp : pyGet (create_access_token s t0 data).claims "exp"
      = .i ((t0 : Int) + (s.ACCESS_TOKEN_EXPIRE_MINUTES : Int) * 60) := rfl
  have hdec : jwt_decode t1 s.APP_SECRET_KEY s.ALGORITHM
      (create_access_token s t0 data)
      = some (create_access_token s t0 data).claims := by
    simp only [jwt_decode, hkey, if_true, hpexp]
    rw [if_neg]
    omega
  have htype : pyGet (create_access_token s t0 data).claims "type"
      = .s "access" := rfl
  have huid : pyGet (create_access_token s t0 data).claims "user_id" = u := by
    rw [← hu]
    rfl
  have hbid : pyGet (create_access_token s t0 data).claims "branch_id" = bv := by
    rw [← hb]
    rfl
  have hemail : pyGet (create_access_token s t0 data).claims "email" = .s em := by
    rw [← he]
    rfl
  have hadm : pyGet (create_access_token s t0 data).claims "is_admin"
      = .b (pyTruthy (pyGet data "is_admin")) := rfl
  constructor
  · simp only [verify_token, hdec, htype, extractId_of_ne_none hun,
      extractId_of_ne_none hbn, huid, hbid, hemail, hadm]
    have hguard : (PyVal.s "access" != PyVal.s "access") = false := by decide
    rw [hguard]
    simp only [Bool.false_eq_true, if_false, extractIsAdmin]
    have htruthy : (pyTruthyOptStr (some (pyStr u)) && pyTruthy (.s em)
        && pyTruthyOptStr (some (pyStr bv))) = true := by
      simp [pyTruthyOptStr, pyTruthy, hus, hbs, hem]
    rw [htruthy]
    simp [pyTruthy]
  · simp only [verify_token, hdec, htype]
    have hguard : (PyVal.s "access" != PyVal.s "refresh") = true := by decide
    rw [hguard]
    simp

/-- Witness for `access_token_roundtrip` on the concrete claims map
`tokenClaimsGood` minted at time 0 and verified at time 10. -/
theorem access_token_roundtrip_witness :
    verify_token defaultSettings 10
      (create_access_token defaultSettings 0 tokenClaimsGood) "access"
      = some { user_id := "42", email := .s "a@x.com", branch_id := "7",
               is_admin := true }
    ∧ verify_token defaultSettings 10
      (create_access_token defaultSettings 0 tokenClaimsGood) "refresh"
      = Option.none := by
  have h := access_token_roundtrip defaultSettings 0 10 tokenClaimsGood
    (.i 42) (.s "7") "a@x.com" (by decide) (by decide) (by decide)
    (by decide) (by decide) (by decide) (by decide) (by decide) (by decide)
  exact ⟨h.1.trans (by decide), h.2⟩

/-! ## Claim C8 -/

/-- C8 counterexample: the claim says the caller cannot distinguish a
registered email from an unregistered one by the response. Both responses
do have the success-true-plus-message shape, but the message text differs
("If this email is registered, a reset code has been sent." for an unknown
email versus "Reset code sent to your email." for a registered one), so
the two responses are distinguishable. -/
theorem forgot_password_response_distinguishes :
    (forgot_password defaultSettings 0 "111111" 1 [] [] "a@x.com").1
      = .ok true "If this email is registered, a reset code has been sent."
    ∧ (forgot_password defaultSettings 0 "111111" 1 [userAlice] [] "a@x.com").1
      = .ok true "Reset code sent to your email."
    ∧ (forgot_password defaultSettings 0 "111111" 1 [] [] "a@x.com").1
      ≠ (forgot_password defaultSettings 0 "111111" 1 [userAlice] [] "a@x.com").1 := by
  decide

/-- C8 amended: `forgot_password` returns the same response shape —
success `true` plus a message — whether or not the email belongs to a
registered active user (whenever OTP generation does not raise), but the
two message texts differ, so a caller comparing message bodies can tell a
registered email from an unregistered one. -/
theorem forgot_password_uniform_shape (s : Settings) (now : Nat) (code : String)
    (nid : Nat) (users : List UserRecord) (otpDb : List OtpRecord)
    (email : String) :
    (users.find? (fun u => u.email == pyLower email && u.is_active == true)
        = Option.none →
      (forgot_password s now code nid users otpDb email).1
        = .ok true "If this email is registered, a reset code has been sent.")
    ∧ (∀ u, users.find? (fun u => u.email == pyLower email && u.is_active == true)
        = some u →
      (∀ m, (generate_otp s now code nid otpDb email "password_reset").1
        ≠ .rateLimited m) →
      (forgot_password s now code nid users otpDb email).1
        = .ok true "Reset code sent to your email.")
    ∧ ("If this email is registered, a reset code has been sent."
        ≠ "Reset code sent to your email.") := by
  refine ⟨?_, ?_, by decide⟩
  · intro hnone
    simp only [forgot_password, hnone]
  · intro u hsome hnorl
    simp only [forgot_password, hsome]
    cases hgen : generate_otp s now code nid otpDb email "password_reset" with
    | mk res db1 =>
      cases res with
      | rateLimited m => exact absurd (by rw [hgen]) (hnorl m)
      | reused c => rfl
      | fresh c => rfl

/-- Witness for `forgot_password_uniform_shape`: the unregistered and the
registered case at the concrete inputs of the counterexample. -/
theorem forgot_password_uniform_shape_witness :
    (forgot_password defaultSettings 0 "111111" 1 [userAlice] [] "a@x.com").1
      = .ok true "Reset code sent to your email." := by
  refine (forgot_password_uniform_shape defaultSettings 0 "111111" 1 [userAlice]
    [] "a@x.com").2.1 userAlice (by decide) ?_
  intro m
  have h : (generate_otp defaultSettings 0 "111111" 1 [] "a@x.com"
      "password_reset").1 = .fresh "111111" := by decide
  rw [h]
  intro hcontra
  cases hcontra

/-! ## Claim C9 -/

/-- C9: the claim (and the spec's invariant) requires that concurrent
redemptions of one invite token succeed exactly once. The handler reads
the invite (`select_one` on `is_used = False`) and only later writes
`is_used = True` after inserting the user, with a suspension point at
every store call. Under the admissible schedule A-read, B-read, A-write,
B-write both requests pass the guard against the same unused invite and
both succeed, creating two users from one invite — while the same two
redemptions run sequentially succeed exactly once. This evaluates the code
at that failing schedule. -/
theorem invite_concurrent_double_redemption :
    (inviteSignupInterleaved 0 inviteSt0 "TOK123" 21 22).1 = true
    ∧ (inviteSignupInterleaved 0 inviteSt0 "TOK123" 21 22).2.1 = true
    ∧ (inviteSignupInterleaved 0 inviteSt0 "TOK123" 21 22).2.2.users.length = 2
    ∧ (inviteSignup 0 inviteSt0 "TOK123" 21).1 = true
    ∧ (inviteSignup 0 (inviteSignup 0 inviteSt0 "TOK123" 21).2 "TOK123" 22).1
        = false := by
  decide

/-! ## Claim C10 -/

/-- C10: `get_password_hash` truncates the UTF-8 encoding to its first 72
bytes before hashing and bcrypt's comparison digests at most the first 72
bytes, so whenever two passwords' encodings agree on their first 72 bytes,
`verify_password` accepts either password against a hash produced from the
other (for every digest function `H` and salt). -/
theorem bcrypt_truncation_collision (H : List UInt8 → Nat → List UInt8)
    (salt : Nat) (p1 p2 : String)
    (h : (utf8Bytes p1).take 72 = (utf8Bytes p2).take 72) :
    verify_password H p2 (get_password_hash H salt p1) = true := by
  simp only [verify_password, get_password_hash, bcrypt_hashpw, bcrypt_checkpw]
  split
  · simp [List.take_take, h]
  · simp [h]

/-- Witness for `bcrypt_truncation_collision`: two distinct 73-byte
passwords agreeing on their first 72 bytes; either verifies against the
other's hash. -/
theorem bcrypt_truncation_collision_witness :
    verify_password (fun bs _ => bs)
      "aaaaaaaaaaaaaaaaaaaaaaaaaaaaaaaaaaaaaaaaaaaaaaaaaaaaaaaaaaaaaaaaaaaaaaaac"
      (get_password_hash (fun bs _ => bs) 0
        "aaaaaaaaaaaaaaaaaaaaaaaaaaaaaaaaaaaaaaaaaaaaaaaaaaaaaaaaaaaaaaaaaaaaaaaab")
      = true
    ∧ ("aaaaaaaaaaaaaaaaaaaaaaaaaaaaaaaaaaaaaaaaaaaaaaaaaaaaaaaaaaaaaaaaaaaaaaaab"
        ≠ "aaaaaaaaaaaaaaaaaaaaaaaaaaaaaaaaaaaaaaaaaaaaaaaaaaaaaaaaaaaaaaaaaaaaaaaac") := by
  exact ⟨bcrypt_truncation_collision (fun bs _ => bs) 0
    "aaaaaaaaaaaaaaaaaaaaaaaaaaaaaaaaaaaaaaaaaaaaaaaaaaaaaaaaaaaaaaaaaaaaaaaab"
    "aaaaaaaaaaaaaaaaaaaaaaaaaaaaaaaaaaaaaaaaaaaaaaaaaaaaaaaaaaaaaaaaaaaaaaaac"
    (by decide), by decide⟩
